import Mathlib

/-!
Verification of the generate → sanitize → execute → introspect pipeline
of `src/app.py` (an AI MIDI generator web application).

The Python source is shallowly embedded: strings are modelled as `List Char`
where regular-expression behaviour matters (the Source Sanitizer) and as
`String` elsewhere; the child process and the external MIDI parser (`mido`)
are modelled by their observable outcomes (exit code plus captured output,
and an `Except`-valued parse result, respectively).
-/

namespace AIMidi

/-! ## Source Sanitizer (`strip_markdown_code`, src/app.py lines 38-45)

The Python function performs two substitutions:
  `re.sub(r"^```[^\n]*\n", "", text)` and then `re.sub(r"\n```$", "", text)`.
Without `re.MULTILINE`, `^` matches only at the start of the string, so the
first substitution removes the text through the first newline when the string
starts with three backticks and contains a newline.  In Python, `$` matches at
the end of the string or just before a newline that ends the string, so the
second substitution removes the four characters of a fence that either ends
the string or is followed only by the terminating newline. -/

/-- Drop characters up to and including the first newline; `none` when the
list contains no newline (mirroring that `[^\n]*\n` needs a newline). -/
def dropThroughNewline : List Char → Option (List Char)
  | [] => none
  | c :: r => if c = '\n' then some r else dropThroughNewline r

/-- Embedding of `re.sub(r"^```[^\n]*\n", "", text)`. -/
def stripLeadingFence (s : List Char) : List Char :=
  if ("```").toList.isPrefixOf s then
    match dropThroughNewline (s.drop 3) with
    | some r => r
    | none => s
  else s

/-- Embedding of `re.sub(r"\n```$", "", text)`: the match ends at the end of
the string, or just before the newline that ends the string. -/
def stripTrailingFence (s : List Char) : List Char :=
  if ("\n```").toList.isSuffixOf s then s.take (s.length - 4)
  else if ("\n```\n").toList.isSuffixOf s then s.take (s.length - 5) ++ ("\n").toList
  else s

/-- Embedding of `strip_markdown_code` (src/app.py lines 38-45). -/
def strip_markdown_code (s : List Char) : List Char :=
  stripTrailingFence (stripLeadingFence s)

/-- The leading-fence regular expression `^```[^\n]*\n` matches. -/
def hasLeadingFence (s : List Char) : Bool :=
  ("```").toList.isPrefixOf s && (dropThroughNewline (s.drop 3)).isSome

/-- The trailing-fence regular expression `\n```$` matches somewhere. -/
def hasTrailingFence (s : List Char) : Bool :=
  ("\n```").toList.isSuffixOf s || ("\n```\n").toList.isSuffixOf s

theorem dropThroughNewline_length (s : List Char) :
    ∀ r, dropThroughNewline s = some r → r.length ≤ s.length := by
  induction s with
  | nil => intro r h; simp [dropThroughNewline] at h
  | cons c cs ih =>
    intro r h
    simp only [dropThroughNewline] at h
    by_cases hc : c = '\n'
    · rw [if_pos hc] at h
      injection h with h
      subst h
      simp only [List.length_cons]
      omega
    · rw [if_neg hc] at h
      have := ih r h
      simp only [List.length_cons]
      omega

theorem stripLeadingFence_of_no_fence (s : List Char) (h : hasLeadingFence s = false) :
    stripLeadingFence s = s := by
  unfold stripLeadingFence
  by_cases hp : ("```").toList.isPrefixOf s = true
  · rw [if_pos hp]
    have h2 : (dropThroughNewline (s.drop 3)).isSome = false := by
      unfold hasLeadingFence at h
      rw [hp, Bool.true_and] at h
      exact h
    rcases hd : dropThroughNewline (s.drop 3) with _ | r
    · rfl
    · rw [hd] at h2
      simp at h2
  · rw [if_neg hp]

theorem stripTrailingFence_of_no_fence (s : List Char) (h : hasTrailingFence s = false) :
    stripTrailingFence s = s := by
  unfold hasTrailingFence at h
  have h1 : ("\n```").toList.isSuffixOf s = false := by
    cases ha : ("\n```").toList.isSuffixOf s
    · rfl
    · rw [ha, Bool.true_or] at h
      exact h
  have h2 : ("\n```\n").toList.isSuffixOf s = false := by
    cases hb : ("\n```\n").toList.isSuffixOf s
    · rfl
    · rw [hb, Bool.or_true] at h
      exact h
  unfold stripTrailingFence
  rw [if_neg (by rw [h1]; exact Bool.false_ne_true),
    if_neg (by rw [h2]; exact Bool.false_ne_true)]

theorem stripLeadingFence_length (s : List Char) :
    (stripLeadingFence s).length ≤ s.length := by
  unfold stripLeadingFence
  by_cases hp : ("```").toList.isPrefixOf s = true
  · rw [if_pos hp]
    rcases hd : dropThroughNewline (s.drop 3) with _ | r
    · exact Nat.le_refl _
    · show r.length ≤ s.length
      have hr := dropThroughNewline_length (s.drop 3) r hd
      have hdrop : (s.drop 3).length = s.length - 3 := List.length_drop 3 s
      omega
  · rw [if_neg hp]

theorem stripTrailingFence_length (s : List Char) :
    (stripTrailingFence s).length ≤ s.length := by
  unfold stripTrailingFence
  by_cases h1 : ("\n```").toList.isSuffixOf s = true
  · rw [if_pos h1, List.length_take]
    exact min_le_right _ _
  · rw [if_neg h1]
    by_cases h2 : ("\n```\n").toList.isSuffixOf s = true
    · rw [if_pos h2, List.length_append, List.length_take]
      have hs : (("\n```\n").toList) <:+ s := List.isSuffixOf_iff_suffix.mp h2
      have hlen : (("\n```\n").toList).length ≤ s.length := hs.length_le
      have h5c : (("\n```\n").toList).length = 5 := by decide
      have h5 : (5 : Nat) ≤ s.length := by omega
      have hone : (("\n").toList).length = 1 := by decide
      rw [hone, Nat.min_eq_left (Nat.sub_le _ _)]
      omega
    · rw [if_neg h2]

/-- Claim C2 counterexample: the sanitizer is not idempotent.  On the input
`"a\n```\n```"` one application removes only the final fence, producing
`"a\n```"`, and a second application removes the newly exposed trailing
fence, producing `"a"`. -/
theorem spec_C2_counterexample :
    strip_markdown_code (strip_markdown_code ("a\n```\n```").toList) ≠
      strip_markdown_code ("a\n```\n```").toList := by decide

/-- Claim C2 (amended): the Source Sanitizer is idempotent on every input
whose sanitized form has no leading fence line and no trailing fence line;
applying it a second time then has no additional effect. -/
theorem spec_C2 (s : List Char)
    (h1 : hasLeadingFence (strip_markdown_code s) = false)
    (h2 : hasTrailingFence (strip_markdown_code s) = false) :
    strip_markdown_code (strip_markdown_code s) = strip_markdown_code s := by
  show stripTrailingFence (stripLeadingFence (strip_markdown_code s)) = _
  rw [stripLeadingFence_of_no_fence _ h1, stripTrailingFence_of_no_fence _ h2]

/-- Witness for C2 at the concrete input `"```python\nhi\n```"`, whose
sanitized form `"hi"` is fence-free. -/
theorem spec_C2_witness :
    strip_markdown_code (strip_markdown_code ("```python\nhi\n```").toList) =
      strip_markdown_code ("```python\nhi\n```").toList :=
  spec_C2 (("```python\nhi\n```").toList) (by decide) (by decide)

/-- Claim C5: when the input has no leading fence line and no trailing fence
line the sanitizer returns it unchanged, and on every input the output is at
most as long as the input. -/
theorem spec_C5 (s : List Char) :
    (hasLeadingFence s = false ∧ hasTrailingFence s = false →
      strip_markdown_code s = s) ∧
    (strip_markdown_code s).length ≤ s.length := by
  constructor
  · rintro ⟨h1, h2⟩
    show stripTrailingFence (stripLeadingFence s) = s
    rw [stripLeadingFence_of_no_fence s h1, stripTrailingFence_of_no_fence s h2]
  · calc (stripTrailingFence (stripLeadingFence s)).length
        ≤ (stripLeadingFence s).length := stripTrailingFence_length _
      _ ≤ s.length := stripLeadingFence_length s

/-- Witness for C5 at the fence-free concrete input `"hello\nworld"`. -/
theorem spec_C5_witness :
    strip_markdown_code ("hello\nworld").toList = ("hello\nworld").toList ∧
    (strip_markdown_code ("hello\nworld").toList).length ≤
      (("hello\nworld").toList).length :=
  ⟨(spec_C5 (("hello\nworld").toList)).1 (by constructor <;> decide),
   (spec_C5 (("hello\nworld").toList)).2⟩

/-! ## Genre catalog (`genre_extra_details`, src/app.py lines 87-117)

The Python dict of genre style descriptions, as an association list. -/

def genre_extra_details : List (String × String) :=
  [ ("Pop", "Typically features catchy melodies, simple chord progressions like I-V-vi-IV, and a clear, danceable rhythm."),
    ("Rock", "Often uses power chords, a strong backbeat, and progressions such as I-IV-V. Electric guitar and drums are prominent."),
    ("Hip Hop", "Features syncopated rhythms, sampled loops, and repetitive beats. Often uses minor scales and simple, repetitive chord patterns."),
    ("Jazz", "Characterized by complex chords, improvisation, swing rhythms, and extended harmonies like 7th and 9th chords."),
    ("Blues", "Utilizes the 12-bar blues progression, blue notes, and a soulful, expressive rhythm pattern."),
    ("Classical", "Employs rich harmonic progressions, counterpoint, and structured forms with traditional chord movements."),
    ("Electronic", "Often incorporates synthesized sounds, repetitive loops, and driving rhythms with modern production techniques."),
    ("Country", "Features simple chord progressions (I-IV-V), twangy melodies, and a steady, straightforward rhythm."),
    ("Reggae", "Uses off-beat rhythms, simple progressions, and a laid-back groove with emphasis on the backbeat."),
    ("Folk", "Characterized by acoustic instrumentation, simple chord structures, and a narrative lyrical quality."),
    ("Metal", "Often uses distorted guitars, aggressive rhythms, and complex, heavy chord progressions."),
    ("Soul", "Features expressive melodies, rich chord progressions, and smooth rhythms with an emphasis on groove."),
    ("R&B", "Incorporates smooth, soulful melodies, extended chords like 7ths and 9ths, and a laid-back, groovy rhythm."),
    ("Latin", "Characterized by rhythmic complexity, syncopated beats, and lively chord progressions influenced by Latin styles."),
    ("Punk", "Uses fast tempos, power chords, and simple, high-energy progressions with a raw, driving rhythm."),
    ("Disco", "Features steady four-on-the-floor beats, syncopated basslines, and catchy, repetitive chord progressions."),
    ("Funk", "Utilizes syncopated rhythms, groovy basslines, and extended chords with a strong emphasis on the downbeat."),
    ("House", "Characterized by repetitive 4/4 beats, synthesized basslines, and simple, driving chord progressions."),
    ("Techno", "Features electronic, repetitive beats, synthetic textures, and minimalistic chord progressions."),
    ("Trance", "Uses layered synths, driving rhythms, and euphoric chord progressions with gradual builds and breakdowns."),
    ("Ambient", "Focuses on atmospheric textures, minimalistic progressions, and slow-evolving rhythms."),
    ("Ska", "Combines Caribbean influences with jazz and R&B elements, featuring off-beat rhythms and simple progressions."),
    ("Gospel", "Characterized by uplifting chord progressions, strong vocal harmonies, and a soulful, expressive rhythm."),
    ("World", "Incorporates diverse instruments and scales from various cultures, with unique rhythmic patterns and modal progressions."),
    ("K-Pop", "Features a blend of pop, hip hop, and electronic elements with catchy hooks and polished, modern chord progressions."),
    ("J-Pop", "Often includes bright melodies, eclectic influences, and polished production with standard pop progressions."),
    ("EDM", "Utilizes electronic synthesizers, repetitive beats, and build-drop structures with energetic progressions."),
    ("Indie", "Characterized by a mix of traditional and experimental sounds, often featuring unconventional chord progressions and rhythms."),
    ("Alternative", "Blends elements from various genres with varied chord progressions and eclectic rhythmic patterns.") ]

/-- Embedding of `genre_extra_details.get(genre, "")` (src/app.py line 220). -/
def extraDetailsFor (g : String) : String :=
  (genre_extra_details.lookup g).getD ("")

/-! ## Form-field extraction (`index`, src/app.py lines 202-218)

`request.form.get(key, default)` yields the default when the field is
absent; `int(...)` on an unparseable string raises `ValueError`, which the
handler catches by falling back to the default.  `int` on a string is
modelled faithfully: surrounding whitespace is ignored, an optional sign is
followed by at least one decimal digit, and single underscores may separate
digits (Python 3.6+); anything else fails to parse. -/

def isPySpace (c : Char) : Bool :=
  c = ' ' || c = '\t' || c = '\n' || c = '\r' || c = Char.ofNat 11 || c = Char.ofNat 12

def isPyDigit (c : Char) : Bool := '0' ≤ c && c ≤ '9'

def digitVal (c : Char) : Nat := c.toNat - 48

/-- Consume the remaining digits (with optional single underscores between
digits) after the first digit, accumulating the value. -/
def pyDigitsRest : List Char → Nat → Option Nat
  | [], acc => some acc
  | '_' :: c :: r, acc =>
    if isPyDigit c then pyDigitsRest r (acc * 10 + digitVal c) else none
  | c :: r, acc =>
    if isPyDigit c then pyDigitsRest r (acc * 10 + digitVal c) else none

/-- Parse a nonempty all-digit (underscore-separated) magnitude. -/
def pyNatDigits : List Char → Option Nat
  | [] => none
  | c :: r => if isPyDigit c then pyDigitsRest r (digitVal c) else none

/-- Embedding of Python `int(s)` for a string argument: `some n` when the
call succeeds, `none` when it raises `ValueError`. -/
def pyInt (s : String) : Option Int :=
  match ((s.toList.dropWhile isPySpace).reverse.dropWhile isPySpace).reverse with
  | '+' :: r => (pyNatDigits r).map (fun n => (n : Int))
  | '-' :: r => (pyNatDigits r).map (fun n => -(n : Int))
  | r => (pyNatDigits r).map (fun n => (n : Int))

/-- The raw POST form: each field either absent or a string. -/
structure FormData where
  genre : Option String
  tempo : Option String
  key_center : Option String
  scale_type : Option String
  mood : Option String
  parts_info : Option String
  additional_details : Option String
  measure_count : Option String
  beat_subdivision : Option String

/-- The Parameter Record the handler assembles and feeds to the prompt
template (src/app.py lines 204-220 and 226-237). -/
structure Params where
  genre : String
  extra_details : String
  tempo : Int
  key_center : String
  scale_type : String
  mood : String
  parts_info : String
  additional_details : String
  measure_count : Int
  beat_subdivision : String

/-- Embedding of `try: x = int(form.get(key, default)) except ValueError:
x = default` (src/app.py lines 205-208 and 214-217). -/
def pyIntField (field : Option String) (dflt : Int) : Int :=
  match field with
  | none => dflt
  | some s => (pyInt s).getD dflt

/-- Embedding of the form-processing step of `index` (src/app.py lines
202-220): every field falls back to its default; no field is range-checked
and no branch reports an error. -/
def paramsOfForm (f : FormData) : Params :=
  { genre := f.genre.getD ("Pop")
  , extra_details := extraDetailsFor (f.genre.getD ("Pop"))
  , tempo := pyIntField f.tempo 120
  , key_center := f.key_center.getD ("C")
  , scale_type := f.scale_type.getD ("major")
  , mood := f.mood.getD ("Bright and upbeat")
  , parts_info := f.parts_info.getD ("1) Piano for chords\n2) Bass for rhythm\n3) Drums for beat")
  , additional_details := f.additional_details.getD ("Provide any additional details as needed.")
  , measure_count := pyIntField f.measure_count 16
  , beat_subdivision := f.beat_subdivision.getD ("1/4") }

/-! ## Prompt Builder (`midi_prompt`, src/app.py lines 133-182)

`PromptTemplate` with f-string style substitution: rendering splices the
ten input variables into the fixed template text. -/

def midiPromptText1 : String := "\nYou are an excellent musician and Python programmer.\nBased on the following song description, generate a complete Python code that uses the mido library to create a MIDI file.\nAll instrument parts must adhere to the same time signature. Compute the measure duration as follows:\n- Define a constant TICKS_PER_BEAT (for example, 480).\n- Determine the number of beats per measure based on the \"Main Beat Subdivision\" input:\n    - If the value is \"1/4\", assume 4 beats per measure.\n    - If the value is \"3/4\", assume 3 beats per measure.\n    - If the value is \"6/8\", assume 3 beats per measure (since 6 eighth notes equal 3 quarter notes).\n    - For values like \"1/8\" or \"1/16\", default to 4 beats per measure.\n- Calculate MEASURE_TICKS = TICKS_PER_BEAT * (number of beats per measure).\n- Ensure that all instrument patterns align properly with each measure to create a cohesive groove (avoid mismatched feels).\n\nDetails:\n- Genre: "

def midiPromptText2 : String := "\n\nRequirements:\n1. Import necessary libraries (such as mido, MidiFile, MidiTrack, MetaMessage, etc.).\n2. Define a constant TICKS_PER_BEAT (for example, 480).\n3. Determine the number of beats per measure based on the \"Main Beat Subdivision\" as described above, and calculate MEASURE_TICKS.\n4. Create a new MIDI file.\n5. Set the tempo using the provided BPM.\n6. Create MIDI tracks for each instrument part (for example, piano, bass, and drums).\n   For each instrument, create a new MidiTrack and append messages to that track.\n   Do not append individual MetaMessage objects directly to the file.\n7. Use consistent rhythmic subdivisions for all instruments so the overall feel is coherent.\n8. Use distinct channels and program changes for each track so that different instruments are recognized.\n   - For example, channel 0 with program=0 for piano, channel 1 with program=32 for bass, and channel 9 for drums.\n   - Insert a \x27program_change\x27 message at the beginning of each track for non-drum instruments.\n   - For the drum track, simply set the channel to 9 (GM standard for percussion).\n9. For each instrument, insert note events so that the total duration in each measure equals MEASURE_TICKS.\n10. Save the MIDI file as \"output.mid\".\n\nOutput only the complete Python code (without markdown code fences).\n"

/-- Embedding of rendering `midi_prompt` on a Parameter Record. -/
def renderMidiPrompt (p : Params) : String :=
  midiPromptText1 ++ p.genre
    ++ "\n- Extra Genre Details: " ++ p.extra_details
    ++ "\n- Tempo (BPM): " ++ toString p.tempo
    ++ "\n- Key: " ++ p.key_center
    ++ "\n- Scale: " ++ p.scale_type
    ++ "\n- Mood: " ++ p.mood
    ++ "\n- Parts Information: " ++ p.parts_info
    ++ "\n- Additional Details: " ++ p.additional_details
    ++ "\n- Number of Measures: " ++ toString p.measure_count
    ++ "\n- Main Beat Subdivision: " ++ p.beat_subdivision
    ++ midiPromptText2

/-- The beats-per-measure lookup that the prompt text encodes (src/app.py
lines 143-148): 3/4 and 6/8 map to 3 beats per measure, every other
subdivision value defaults to 4. -/
def beatsPerMeasure (sub : String) : Nat :=
  if sub = "3/4" then 3 else if sub = "6/8" then 3 else 4

/-- Claim C8: the fixed lookup encoded by the prompt maps 1/4, 1/8 and 1/16
to 4 beats per measure and 3/4 and 6/8 to 3 beats per measure. -/
theorem spec_C8 :
    beatsPerMeasure ("1/4") = 4 ∧ beatsPerMeasure ("1/8") = 4 ∧
    beatsPerMeasure ("1/16") = 4 ∧ beatsPerMeasure ("3/4") = 3 ∧
    beatsPerMeasure ("6/8") = 3 := by decide

/-- Claim C7: the Prompt Builder is pure and deterministic — rendering is a
function of the Parameter Record alone, so identical records always yield
identical prompt strings. -/
theorem spec_C7 (p q : Params) (h : p = q) :
    renderMidiPrompt p = renderMidiPrompt q := by rw [h]

/-- A concrete Parameter Record (the handler defaults). -/
def demoRecord : Params :=
  { genre := "Pop"
  , extra_details := extraDetailsFor ("Pop")
  , tempo := 120
  , key_center := "C"
  , scale_type := "major"
  , mood := "Bright and upbeat"
  , parts_info := "1) Piano for chords\n2) Bass for rhythm\n3) Drums for beat"
  , additional_details := "Provide any additional details as needed."
  , measure_count := 16
  , beat_subdivision := "1/4" }

/-- Witness for C7 at the concrete default Parameter Record. -/
theorem spec_C7_witness :
    renderMidiPrompt demoRecord = renderMidiPrompt demoRecord :=
  spec_C7 demoRecord demoRecord rfl

/-- A form whose tempo and measure count parse to values far outside the
documented bounds. -/
def wildForm : FormData :=
  { genre := some ("Pop"), tempo := some ("9999"), key_center := none
  , scale_type := none, mood := none, parts_info := none
  , additional_details := none, measure_count := some ("9999")
  , beat_subdivision := none }

/-- Claim C9: an absent or unparseable tempo or measure_count field is
silently replaced by its default (120 and 16); the extraction is total, so
the pipeline proceeds without reporting an error, and no range check is
applied — a parsed tempo of 9999, far outside [50,300], is used as-is. -/
theorem spec_C9 (f : FormData) :
    (f.tempo = none → (paramsOfForm f).tempo = 120) ∧
    (∀ s, f.tempo = some s → pyInt s = none → (paramsOfForm f).tempo = 120) ∧
    (f.measure_count = none → (paramsOfForm f).measure_count = 16) ∧
    (∀ s, f.measure_count = some s → pyInt s = none →
      (paramsOfForm f).measure_count = 16) ∧
    ((paramsOfForm wildForm).tempo = 9999 ∧
      ¬((50:Int) ≤ (paramsOfForm wildForm).tempo ∧
        (paramsOfForm wildForm).tempo ≤ 300) ∧
      (paramsOfForm wildForm).measure_count = 9999) := by
  refine ⟨?_, ?_, ?_, ?_, ?_⟩
  · intro h; simp [paramsOfForm, pyIntField, h]
  · intro s hs hn; simp [paramsOfForm, pyIntField, hs, hn]
  · intro h; simp [paramsOfForm, pyIntField, h]
  · intro s hs hn; simp [paramsOfForm, pyIntField, hs, hn]
  · refine ⟨by decide, by decide, by decide⟩

/-- A form with the tempo field absent and an unparseable measure count. -/
def missingForm : FormData :=
  { genre := none, tempo := none, key_center := none, scale_type := none
  , mood := none, parts_info := none, additional_details := none
  , measure_count := some ("abc"), beat_subdivision := none }

/-- Witness for C9 at a concrete form with tempo absent and measure_count
unparseable. -/
theorem spec_C9_witness :
    (paramsOfForm missingForm).tempo = 120 ∧
    (paramsOfForm missingForm).measure_count = 16 :=
  ⟨(spec_C9 missingForm).1 rfl,
   (spec_C9 missingForm).2.2.2.1 ("abc") rfl (by decide)⟩

/-- Claim C10: a genre outside the fixed catalog gets the empty string as
its extra style description, and the handler (which never rejects a genre)
builds the Parameter Record with that empty string. -/
theorem spec_C10 (g : String) (h : genre_extra_details.lookup g = none) :
    extraDetailsFor g = "" ∧
    ∀ f : FormData, f.genre = some g → (paramsOfForm f).extra_details = "" := by
  constructor
  · simp [extraDetailsFor, h]
  · intro f hf
    simp [paramsOfForm, extraDetailsFor, hf, h]

/-- A form requesting an unknown genre. -/
def zydecoForm : FormData :=
  { genre := some ("Zydeco"), tempo := none, key_center := none
  , scale_type := none, mood := none, parts_info := none
  , additional_details := none, measure_count := none
  , beat_subdivision := none }

/-- Witness for C10 at the concrete unknown genre "Zydeco". -/
theorem spec_C10_witness :
    extraDetailsFor ("Zydeco") = "" ∧
    (paramsOfForm zydecoForm).extra_details = "" :=
  ⟨(spec_C10 ("Zydeco") (by decide)).1,
   (spec_C10 ("Zydeco") (by decide)).2 zydecoForm rfl⟩

/-! ## Sandboxed Executor (src/app.py lines 256-263)

`subprocess.check_output` returns the captured combined output on exit
status zero and raises `CalledProcessError` (carrying the output and the
numeric exit code) on a non-zero status; the handler catches the exception.
The two observable outcomes form a tagged variant. -/

inductive ExecOutcome
  | success (stdout_text : String)
  | failure (combined_output : String) (exit_code : Int)

def ExecOutcome.isSuccess : ExecOutcome → Bool
  | ExecOutcome.success _ => true
  | _ => false

def ExecOutcome.isFailure : ExecOutcome → Bool
  | ExecOutcome.failure _ _ => true
  | _ => false

def exitCodeOf : ExecOutcome → Option Int
  | ExecOutcome.success _ => none
  | ExecOutcome.failure _ c => some c

def outputOf : ExecOutcome → String
  | ExecOutcome.success o => o
  | ExecOutcome.failure o _ => o

/-- Embedding of the `try: subprocess.check_output ... except
CalledProcessError` block given the child's exit code and captured
stdout+stderr. -/
def runGeneratedCode (exit_code : Int) (combined_output : String) : ExecOutcome :=
  if exit_code = 0 then ExecOutcome.success combined_output
  else ExecOutcome.failure combined_output exit_code

/-! ## Artifact Inspector (`get_midi_info`, src/app.py lines 47-82)

The `mido` parser is external to the repository; it is modelled by its
outcome, `Except.error e` when `mido.MidiFile(path)` raises with message
`e` and `Except.ok` with the parsed structure otherwise.  The total
playback length is modelled as a field of the parsed file (it is computed
by `mido`, not by this repository).  Everything inside the Python `try`
block — including the `IndexError` from `mid.tracks[0]` on a track-less
file and the `ZeroDivisionError` from `mido.tempo2bpm(0)` — funnels into
the `except Exception` branch, which returns a textual error summary. -/

inductive MidiMsg
  | noteOn
  | noteOff
  | setTempo (tempo : Nat)
  | other (desc : String)
deriving DecidableEq

structure MidiTrack where
  name : String
  msgs : List MidiMsg
deriving DecidableEq

structure MidiFile where
  tracks : List MidiTrack
  length : Rat
deriving DecidableEq

/-- `mido.tempo2bpm`: microseconds-per-beat to beats-per-minute. -/
def tempo2bpm (t : Nat) : Rat := (60000000 : Rat) / (t : Rat)

/-- Embedding of the `for msg in mid.tracks[0]` loop (src/app.py lines
54-57): stop at the first `set_tempo` message and convert it;
`mido.tempo2bpm(0)` raises, which surfaces as an error. -/
def actualTempoLoop : List MidiMsg → Except String (Option Rat)
  | [] => Except.ok none
  | MidiMsg.setTempo t :: _ =>
    if t = 0 then Except.error ("division by zero")
    else Except.ok (some (tempo2bpm t))
  | _ :: rest => actualTempoLoop rest

/-- Modelled from the spec wording: the first tempo meta-event found in a
track, used to state claim C6 as a refinement of `actualTempoLoop`. -/
def firstTempoMeta : List MidiMsg → Option Nat
  | [] => none
  | MidiMsg.setTempo t :: _ => some t
  | _ :: rest => firstTempoMeta rest

/-- All `set_tempo` messages carry a positive (well-formed) tempo value. -/
def tempoPosB : MidiMsg → Bool
  | MidiMsg.setTempo t => decide (0 < t)
  | _ => true

/-- Two-decimal rendering of a rational, standing in for Python's `{:.2f}`
float formatting. -/
def fmt2 (q : Rat) : String :=
  toString ((q * 100 + 1 / 2).floor / 100) ++ "." ++
    (if (q * 100 + 1 / 2).floor % 100 < 10 then "0" else "") ++
    toString ((q * 100 + 1 / 2).floor % 100)

/-- The actual-tempo line of the summary (src/app.py lines 61-64); Python's
`if actual_tempo:` is falsy for both `None` and `0.0`. -/
def tempoLine : Option Rat → String
  | some b =>
    if b = 0 then "Actual Tempo (BPM): Not found\n"
    else ("Actual Tempo (BPM): ") ++ fmt2 b ++ "\n"
  | none => "Actual Tempo (BPM): Not found\n"

def isNoteOn : MidiMsg → Bool
  | MidiMsg.noteOn => true
  | _ => false

def isNoteOff : MidiMsg → Bool
  | MidiMsg.noteOff => true
  | _ => false

/-- Stand-in for `mido`'s `str(msg)` used in the preview lines. -/
def msgRepr : MidiMsg → String
  | MidiMsg.noteOn => "note_on"
  | MidiMsg.noteOff => "note_off"
  | MidiMsg.setTempo t => ("set_tempo tempo=") ++ toString t
  | MidiMsg.other d => d

def previewText (msgs : List MidiMsg) : String :=
  String.join ((msgs.take 5).map (fun m => ("    ") ++ msgRepr m ++ "\n"))

/-- The per-track block of the summary (src/app.py lines 68-78). -/
def trackText (i : Nat) (tr : MidiTrack) : String :=
  (if tr.name = "" then ("Part ") ++ toString (i + 1) else tr.name) ++ ":\n"
    ++ "  Note On events: " ++ toString (tr.msgs.countP isNoteOn) ++ "\n"
    ++ "  Note Off events: " ++ toString (tr.msgs.countP isNoteOff) ++ "\n"
    ++ "  Preview messages:\n"
    ++ previewText tr.msgs
    ++ "\n"

def tracksTextFrom : Nat → List MidiTrack → String
  | _, [] => ""
  | i, tr :: rest => trackText i tr ++ tracksTextFrom (i + 1) rest

/-- The summary text after its fixed heading (src/app.py lines 60-78). -/
def midiInfoRest (mid : MidiFile) (user_tempo user_measure_count : Int)
    (actual : Option Rat) : String :=
  ("User Specified Tempo (BPM): ") ++ toString user_tempo ++ "\n"
    ++ tempoLine actual
    ++ "User Specified Number of Measures: " ++ toString user_measure_count ++ "\n"
    ++ "Total Length: " ++ fmt2 mid.length ++ " seconds\n"
    ++ "Number of Tracks (Parts): " ++ toString mid.tracks.length ++ "\n\n"
    ++ tracksTextFrom 0 mid.tracks

/-- The body of the `try` block as an `Except` computation. -/
def infoResult : Except String MidiFile → Int → Int → Except String String
  | Except.error e, _, _ => Except.error e
  | Except.ok mid, t, m =>
    match mid.tracks with
    | [] => Except.error ("list index out of range")
    | tr0 :: _ =>
      match actualTempoLoop tr0.msgs with
      | Except.error e => Except.error e
      | Except.ok actual =>
        Except.ok (("MIDI File Information:\n") ++ midiInfoRest mid t m actual)

/-- Embedding of `get_midi_info` (src/app.py lines 47-82): a total
function — every exception inside the `try` block becomes the tagged
textual error summary of the `except` branch. -/
def get_midi_info (parse : Except String MidiFile)
    (user_tempo user_measure_count : Int) : String :=
  match infoResult parse user_tempo user_measure_count with
  | Except.ok s => s
  | Except.error e => ("Error reading MIDI file information: ") ++ e

/-! ## Result Reporter (src/app.py lines 253-278)

After the execution attempt the handler sets `midi_info` from the artifact
file whenever that file exists — the exit status is not consulted — and
renders the report. -/

structure ResultReport where
  generated_code : String
  execution_output : String
  midi_exists : Bool
  midi_info : String

/-- Embedding of the tail of the POST handler (src/app.py lines 253-278):
`artifact` is `none` when `output.mid` does not exist and `some parse`
when it exists with the given parse outcome. -/
def buildReport (generated_code : String) (exit_code : Int)
    (combined_output : String) (artifact : Option (Except String MidiFile))
    (tempo measure_count : Int) : ResultReport :=
  { generated_code := generated_code
  , execution_output := outputOf (runGeneratedCode exit_code combined_output)
  , midi_exists := artifact.isSome
  , midi_info :=
      match artifact with
      | some parse => get_midi_info parse tempo measure_count
      | none => "" }

/-- The rendered report carries a MIDI Summary (the template shows the
`midi_info` block only when it is a non-empty string). -/
def hasMidiSummary (r : ResultReport) : Prop := r.midi_info ≠ ""

theorem append_ne_empty_left (a b : String) (h : a.length ≠ 0) : a ++ b ≠ "" := by
  intro he
  have hlen : (a ++ b).length = a.length + b.length := String.length_append a b
  rw [he] at hlen
  have h0 : ("" : String).length = 0 := rfl
  omega

theorem infoResult_ok_shape (p : Except String MidiFile) (t m : Int) (s : String)
    (h : infoResult p t m = Except.ok s) :
    ∃ r, s = ("MIDI File Information:\n") ++ r := by
  cases p with
  | error e => simp [infoResult] at h
  | ok mid =>
    rcases htr : mid.tracks with _ | ⟨tr0, rest⟩
    · simp [infoResult, htr] at h
    · rcases hl : actualTempoLoop tr0.msgs with e | a
      · simp [infoResult, htr, hl] at h
      · simp [infoResult, htr, hl] at h
        exact ⟨_, h.symm⟩

theorem get_midi_info_ne (p : Except String MidiFile) (t m : Int) :
    get_midi_info p t m ≠ "" := by
  unfold get_midi_info
  cases hres : infoResult p t m with
  | error e => exact append_ne_empty_left _ e (by decide)
  | ok s =>
    obtain ⟨r, hr⟩ := infoResult_ok_shape p t m s hres
    rw [hr]
    exact append_ne_empty_left _ r (by decide)

/-- Claim C3: per run exactly one Execution Outcome variant is populated
(success exactly when failure is not), and the child's numeric exit code is
present in the outcome precisely for a non-zero (failing) exit. -/
theorem spec_C3 (exit_code : Int) (combined_output : String) :
    ((runGeneratedCode exit_code combined_output).isSuccess = true ↔
      (runGeneratedCode exit_code combined_output).isFailure = false) ∧
    ((exitCodeOf (runGeneratedCode exit_code combined_output)).isSome = true ↔
      (runGeneratedCode exit_code combined_output).isFailure = true) ∧
    exitCodeOf (runGeneratedCode exit_code combined_output) =
      (if exit_code = 0 then none else some exit_code) := by
  by_cases h : exit_code = 0 <;>
    simp [runGeneratedCode, exitCodeOf, h, ExecOutcome.isSuccess,
      ExecOutcome.isFailure]

/-- Claim C4: the Artifact Inspector is a total function of the parse
outcome — when parsing raises it returns the tagged textual error summary
(and likewise for a parsed file with no tracks), never propagating the
exception. -/
theorem spec_C4 (e : String) (t m : Int) (q : Rat) :
    get_midi_info (Except.error e) t m =
      ("Error reading MIDI file information: ") ++ e ∧
    get_midi_info (Except.ok (MidiFile.mk [] q)) t m =
      ("Error reading MIDI file information: ") ++ ("list index out of range") := by
  constructor <;> rfl

theorem firstTempoMeta_pos (msgs : List MidiMsg) :
    msgs.all tempoPosB = true → ∀ t, firstTempoMeta msgs = some t → 0 < t := by
  induction msgs with
  | nil => intro _ t ht; simp [firstTempoMeta] at ht
  | cons m rest ih =>
    intro h t ht
    rw [List.all_cons, Bool.and_eq_true] at h
    cases m with
    | noteOn => exact ih h.2 t (by simpa [firstTempoMeta] using ht)
    | noteOff => exact ih h.2 t (by simpa [firstTempoMeta] using ht)
    | other d => exact ih h.2 t (by simpa [firstTempoMeta] using ht)
    | setTempo t2 =>
      have h2 : 0 < t2 := by simpa [tempoPosB] using h.1
      simp [firstTempoMeta] at ht
      omega

theorem actualTempoLoop_eq (msgs : List MidiMsg) :
    msgs.all tempoPosB = true →
    actualTempoLoop msgs = Except.ok ((firstTempoMeta msgs).map tempo2bpm) := by
  induction msgs with
  | nil => intro _; rfl
  | cons m rest ih =>
    intro h
    rw [List.all_cons, Bool.and_eq_true] at h
    cases m with
    | noteOn => simpa [actualTempoLoop, firstTempoMeta] using ih h.2
    | noteOff => simpa [actualTempoLoop, firstTempoMeta] using ih h.2
    | other d => simpa [actualTempoLoop, firstTempoMeta] using ih h.2
    | setTempo t2 =>
      have h2 : 0 < t2 := by simpa [tempoPosB] using h.1
      have hne : ¬(t2 = 0) := by omega
      simp [actualTempoLoop, firstTempoMeta, hne]

/-- Claim C6: on a well-formed first track (every tempo meta-event value
positive) the inspector's detected tempo is exactly the beats-per-minute
conversion of the first tempo meta-event, the summary line shows that
conversion when one exists, and shows "Not found" when the track has no
tempo meta-event. -/
theorem spec_C6 (msgs : List MidiMsg) (h : msgs.all tempoPosB = true) :
    actualTempoLoop msgs = Except.ok ((firstTempoMeta msgs).map tempo2bpm) ∧
    (∀ t, firstTempoMeta msgs = some t →
      tempoLine ((firstTempoMeta msgs).map tempo2bpm) =
        ("Actual Tempo (BPM): ") ++ fmt2 (tempo2bpm t) ++ "\n") ∧
    (firstTempoMeta msgs = none →
      tempoLine ((firstTempoMeta msgs).map tempo2bpm) =
        "Actual Tempo (BPM): Not found\n") := by
  refine ⟨actualTempoLoop_eq msgs h, ?_, ?_⟩
  · intro t ht
    have hpos := firstTempoMeta_pos msgs h t ht
    have hbpm : tempo2bpm t ≠ 0 := by
      unfold tempo2bpm
      have ht0 : (t : Rat) ≠ 0 := Nat.cast_ne_zero.mpr (by omega)
      exact div_ne_zero (by norm_num) ht0
    rw [ht]
    simp [tempoLine, hbpm]
  · intro ht
    rw [ht]
    rfl

/-- A small first track: a non-tempo message followed by a 120 BPM tempo
meta-event. -/
def demoMsgs : List MidiMsg :=
  [MidiMsg.other ("program_change"), MidiMsg.setTempo 500000]

/-- Witness for C6 at a concrete track whose tempo values are positive. -/
theorem spec_C6_witness :
    actualTempoLoop demoMsgs =
      Except.ok ((firstTempoMeta demoMsgs).map tempo2bpm) :=
  (spec_C6 demoMsgs (by decide)).1

/-- A well-formed parsed MIDI file for the report counterexample. -/
def demoMidi : MidiFile :=
  { tracks := [{ name := "", msgs := demoMsgs }], length := 32 }

/-- Claim C1 counterexample: run the child with exit code 1 (a Failure
outcome) while the artifact file exists — the handler's `midi_info` is set
from the file regardless of the exit status, so the report does contain a
MIDI Summary after a non-zero exit. -/
theorem spec_C1_counterexample :
    hasMidiSummary
      (buildReport ("print(1)") 1 ("Traceback") (some (Except.ok demoMidi)) 120 16) ∧
    (runGeneratedCode 1 ("Traceback")).isFailure = true := by
  constructor
  · show (buildReport ("print(1)") 1 ("Traceback")
      (some (Except.ok demoMidi)) 120 16).midi_info ≠ ""
    exact get_midi_info_ne (Except.ok demoMidi) 120 16
  · rfl

/-- Claim C1 (amended): the Result Report contains a MIDI Summary if and
only if the expected artifact file exists at inspection time, regardless of
the Execution Outcome; in particular a non-zero exit with no artifact
present yields no MIDI Summary. -/
theorem spec_C1 (generated_code : String) (exit_code : Int)
    (combined_output : String) (artifact : Option (Except String MidiFile))
    (tempo measure_count : Int) :
    hasMidiSummary
      (buildReport generated_code exit_code combined_output artifact tempo measure_count) ↔
    artifact.isSome = true := by
  cases artifact with
  | none => simp [buildReport, hasMidiSummary]
  | some parse =>
    simp only [buildReport, hasMidiSummary, Option.isSome]
    constructor
    · intro _; trivial
    · intro _
      exact get_midi_info_ne parse tempo measure_count

end AIMidi
